import Mathlib

/-!
Shallow embedding of the rust-fluxcd controller host, checked against its
specification. Sources embedded here:
  - libs/utils/cops/src/metrics.rs (the metrics Recorder)
  - libs/utils/cap/src/cli.rs (the command surface)
  - libs/utils/cap/src/lib.rs (ControllerApp.main and the reconciler span)
  - libs/utils/cap/src/signals.rs (termination signals and the shared
    shutdown future)
Machine floats of the metrics library are modelled as rationals; gauges are
modelled as total maps from label vectors to values, with 0 the value of a
series that has never been written (a fresh prometheus gauge series reads 0).
-/

/-! ## Metrics recorder (libs/utils/cops/src/metrics.rs) -/

/-- The fields of a k8s ObjectReference that the Recorder reads. Each is
optional in the source type. -/
structure ObjectReference where
  kind : Option String
  name : Option String
  namespace_ : Option String
  deriving DecidableEq

/-- The fields of a k8s meta/v1 Condition that the Recorder reads: the
condition type and its status string. -/
structure Condition where
  type_ : String
  status : String
  deriving DecidableEq

/-- A prometheus GaugeVec, modelled as a total map from label vectors to the
current value of that series. -/
def GaugeVec : Type := List String → ℚ

/-- with_label_values(labels).set(v): point update of one series. -/
def GaugeVec.set (g : GaugeVec) (labels : List String) (v : ℚ) : GaugeVec :=
  fun l => if l = labels then v else g l

/-- State of the Recorder: the condition gauge, the suspend gauge, and the
list of label vectors on which duration timers were started (each started
timer commits exactly one histogram sample on stop). -/
structure Recorder where
  condition : GaugeVec
  suspend : GaugeVec
  duration : List (List String)

/-- A Recorder whose gauges have never been written and whose histogram has
no started timers. -/
def Recorder.init : Recorder :=
  { condition := fun _ => 0, suspend := fun _ => 0, duration := [] }

/-- Recorder.record_condition from metrics.rs: reads kind/name/namespace with
unwrap_or_default (empty string when absent), then writes the four status
series True, False, Unknown, Deleted in that order; a series gets 1 when its
guard holds and 0 otherwise. -/
def Recorder.record_condition (r : Recorder) (obj : ObjectReference)
    (condition : Condition) (deleted : Bool) : Recorder :=
  let kind := obj.kind.getD ""
  let name := obj.name.getD ""
  let namespace_ := obj.namespace_.getD ""
  let ty := condition.type_
  let record := fun (g : GaugeVec) (status : String) (value : Bool) =>
    g.set [kind, name, namespace_, ty, status] (if value then 1 else 0)
  { r with
    condition :=
      record
        (record
          (record
            (record r.condition "True" (!deleted && (condition.status == "True")))
            "False" (!deleted && (condition.status == "False")))
          "Unknown" (!deleted && (condition.status == "Unknown")))
        "Deleted" deleted }

/-- Recorder.record_suspend from metrics.rs. -/
def Recorder.record_suspend (r : Recorder) (obj : ObjectReference)
    (suspend : Bool) : Recorder :=
  let kind := obj.kind.getD ""
  let name := obj.name.getD ""
  let namespace_ := obj.namespace_.getD ""
  let value : ℚ := if suspend then 1 else 0
  { r with suspend := r.suspend.set [kind, name, namespace_] value }

/-- Recorder.record_duration from metrics.rs: starts a timer on the series
keyed by kind/name/namespace (absent fields read as empty strings). -/
def Recorder.record_duration (r : Recorder) (obj : ObjectReference) : Recorder :=
  let kind := obj.kind.getD ""
  let name := obj.name.getD ""
  let namespace_ := obj.namespace_.getD ""
  { r with duration := [kind, name, namespace_] :: r.duration }

/-- Reads the condition gauge of a Recorder at the key
(kind, name, namespace, type) of an object and condition, for one status. -/
def conditionRow (r : Recorder) (obj : ObjectReference) (cond : Condition)
    (status : String) : ℚ :=
  r.condition [obj.kind.getD "", obj.name.getD "", obj.namespace_.getD "",
    cond.type_, status]

/-- The four status series of one (kind,name,namespace,type) key, in the
order True, False, Unknown, Deleted. -/
def conditionRows (r : Recorder) (obj : ObjectReference) (cond : Condition) :
    List ℚ :=
  [conditionRow r obj cond "True", conditionRow r obj cond "False",
   conditionRow r obj cond "Unknown", conditionRow r obj cond "Deleted"]

theorem GaugeVec.set_self (g : GaugeVec) (k : List String) (v : ℚ) :
    g.set k v k = v := by
  simp [GaugeVec.set]

theorem GaugeVec.set_other (g : GaugeVec) (k k2 : List String) (v : ℚ)
    (h : k2 ≠ k) : g.set k v k2 = g k2 := by
  simp [GaugeVec.set, h]

theorem condKey_ne (a b c d s1 s2 : String) (h : s1 ≠ s2) :
    ([a, b, c, d, s1] : List String) ≠ [a, b, c, d, s2] := by
  simp [h]

/-- What one record_condition call leaves in the four status series of the
key it writes: the value of each series is the truth value of its guard. -/
theorem conditionRows_record (r : Recorder) (obj : ObjectReference)
    (cond : Condition) (d : Bool) :
    conditionRows (r.record_condition obj cond d) obj cond =
      [if !d && (cond.status == "True") then 1 else 0,
       if !d && (cond.status == "False") then 1 else 0,
       if !d && (cond.status == "Unknown") then 1 else 0,
       if d then 1 else 0] := by
  have hTF : ("True" : String) ≠ "False" := by decide
  have hTU : ("True" : String) ≠ "Unknown" := by decide
  have hTD : ("True" : String) ≠ "Deleted" := by decide
  have hFU : ("False" : String) ≠ "Unknown" := by decide
  have hFD : ("False" : String) ≠ "Deleted" := by decide
  have hUD : ("Unknown" : String) ≠ "Deleted" := by decide
  simp only [conditionRows, conditionRow, Recorder.record_condition]
  rw [GaugeVec.set_other _ _ _ _ (condKey_ne _ _ _ _ _ _ hTD),
    GaugeVec.set_other _ _ _ _ (condKey_ne _ _ _ _ _ _ hTU),
    GaugeVec.set_other _ _ _ _ (condKey_ne _ _ _ _ _ _ hTF),
    GaugeVec.set_self,
    GaugeVec.set_other _ _ _ _ (condKey_ne _ _ _ _ _ _ hFD),
    GaugeVec.set_other _ _ _ _ (condKey_ne _ _ _ _ _ _ hFU),
    GaugeVec.set_self,
    GaugeVec.set_other _ _ _ _ (condKey_ne _ _ _ _ _ _ hUD),
    GaugeVec.set_self,
    GaugeVec.set_self]

/-- C4: record_condition with deleted = true sets the Deleted series to 1 and
the True, False and Unknown series to 0 for the written key, whatever the
condition status field holds. -/
theorem record_condition_deleted_forces_deleted (r : Recorder)
    (obj : ObjectReference) (cond : Condition) :
    conditionRows (r.record_condition obj cond true) obj cond = [0, 0, 0, 1] := by
  rw [conditionRows_record]
  simp

/-- C3 counterexample: with deleted = false and a condition status outside
True/False/Unknown, a record_condition call leaves all four status series of
the key at 0, so no series holds 1. -/
theorem record_condition_not_exactly_one :
    conditionRows
        (Recorder.init.record_condition
          ⟨some "Kustomization", some "app", some "default"⟩ ⟨"Ready", "Bogus"⟩
          false)
        ⟨some "Kustomization", some "app", some "default"⟩ ⟨"Ready", "Bogus"⟩ =
      [0, 0, 0, 0] ∧
    ¬ (conditionRows
        (Recorder.init.record_condition
          ⟨some "Kustomization", some "app", some "default"⟩ ⟨"Ready", "Bogus"⟩
          false)
        ⟨some "Kustomization", some "app", some "default"⟩
        ⟨"Ready", "Bogus"⟩).count 1 = 1 := by
  constructor <;> decide

/-- C3 (amended): when deleted holds, or the condition status is one of
True, False, Unknown, a single record_condition call sets exactly one of the
four status series of the key (kind,name,namespace,type) to 1 and the other
three to 0. -/
theorem record_condition_exactly_one (r : Recorder) (obj : ObjectReference)
    (cond : Condition) (d : Bool)
    (h : d = true ∨ cond.status = "True" ∨ cond.status = "False" ∨
      cond.status = "Unknown") :
    (conditionRows (r.record_condition obj cond d) obj cond).count 1 = 1 ∧
    (conditionRows (r.record_condition obj cond d) obj cond).count 0 = 3 := by
  rw [conditionRows_record]
  cases d
  · rcases h with h | h | h | h
    · exact absurd h (by decide)
    · rw [h]; decide
    · rw [h]; decide
    · rw [h]; decide
  · constructor
    · simp [List.count_cons]
    · simp [List.count_cons]

/-- C3 witness. -/
theorem record_condition_exactly_one_witness :
    (conditionRows
        (Recorder.init.record_condition
          ⟨some "GitRepository", some "repo", some "flux-system"⟩
          ⟨"Ready", "True"⟩ false)
        ⟨some "GitRepository", some "repo", some "flux-system"⟩
        ⟨"Ready", "True"⟩).count 1 = 1 ∧
    (conditionRows
        (Recorder.init.record_condition
          ⟨some "GitRepository", some "repo", some "flux-system"⟩
          ⟨"Ready", "True"⟩ false)
        ⟨some "GitRepository", some "repo", some "flux-system"⟩
        ⟨"Ready", "True"⟩).count 0 = 3 :=
  record_condition_exactly_one Recorder.init
    ⟨some "GitRepository", some "repo", some "flux-system"⟩ ⟨"Ready", "True"⟩
    false (Or.inr (Or.inl rfl))

/-- C7: no recording operation is skipped because of a missing label, and an
absent field records as the empty string, field by field. For every object —
the remaining fields arbitrary, present or absent — each of the three
operations with the kind, the name, or the namespace absent still writes its
observation, on the key whose slot for the absent field is the empty string:
the suspend gauge is written, a duration timer is started, and the condition
series are written (shown on the Deleted series; the general write is the
third conjunct). -/
theorem metrics_missing_labels_recorded (r : Recorder) (obj : ObjectReference)
    (b d : Bool) (cond : Condition) :
    (r.record_suspend obj b).suspend
        [obj.kind.getD "", obj.name.getD "", obj.namespace_.getD ""] =
      (if b then 1 else 0) ∧
    (r.record_duration obj).duration =
      [obj.kind.getD "", obj.name.getD "", obj.namespace_.getD ""]
        :: r.duration ∧
    conditionRows (r.record_condition obj cond d) obj cond =
      [if !d && (cond.status == "True") then 1 else 0,
       if !d && (cond.status == "False") then 1 else 0,
       if !d && (cond.status == "Unknown") then 1 else 0,
       if d then 1 else 0] ∧
    (r.record_suspend ⟨none, obj.name, obj.namespace_⟩ b).suspend
        ["", obj.name.getD "", obj.namespace_.getD ""] =
      (if b then 1 else 0) ∧
    (r.record_suspend ⟨obj.kind, none, obj.namespace_⟩ b).suspend
        [obj.kind.getD "", "", obj.namespace_.getD ""] =
      (if b then 1 else 0) ∧
    (r.record_suspend ⟨obj.kind, obj.name, none⟩ b).suspend
        [obj.kind.getD "", obj.name.getD "", ""] =
      (if b then 1 else 0) ∧
    (r.record_duration ⟨none, obj.name, obj.namespace_⟩).duration =
      ["", obj.name.getD "", obj.namespace_.getD ""] :: r.duration ∧
    (r.record_duration ⟨obj.kind, none, obj.namespace_⟩).duration =
      [obj.kind.getD "", "", obj.namespace_.getD ""] :: r.duration ∧
    (r.record_duration ⟨obj.kind, obj.name, none⟩).duration =
      [obj.kind.getD "", obj.name.getD "", ""] :: r.duration ∧
    (r.record_condition ⟨none, obj.name, obj.namespace_⟩ cond d).condition
        ["", obj.name.getD "", obj.namespace_.getD "", cond.type_,
          "Deleted"] = (if d then 1 else 0) ∧
    (r.record_condition ⟨obj.kind, none, obj.namespace_⟩ cond d).condition
        [obj.kind.getD "", "", obj.namespace_.getD "", cond.type_,
          "Deleted"] = (if d then 1 else 0) ∧
    (r.record_condition ⟨obj.kind, obj.name, none⟩ cond d).condition
        [obj.kind.getD "", obj.name.getD "", "", cond.type_, "Deleted"] =
      (if d then 1 else 0) := by
  refine ⟨?_, rfl, conditionRows_record r obj cond d, ?_, ?_, ?_, rfl, rfl,
    rfl, ?_, ?_, ?_⟩ <;>
    simp [Recorder.record_suspend, Recorder.record_condition, GaugeVec.set]

/-! ## Metric descriptors built by Recorder.new (metrics.rs), with the two
prometheus library helpers they call: exponential_buckets and the fully
qualified metric name. Floats are modelled as exact rationals. -/

/-- The bucket loop of prometheus exponential_buckets: pushes next and
multiplies it by factor, count times. -/
def expBucketsFrom (next factor : ℚ) : ℕ → List ℚ
  | 0 => []
  | n + 1 => next :: expBucketsFrom (next * factor) factor n

/-- prometheus exponential_buckets(start, factor, count): errors on
count < 1, start <= 0 or factor <= 1, else the list start, start*factor,
..., start*factor^(count-1). -/
def exponential_buckets (start factor : ℚ) (count : ℕ) :
    Except String (List ℚ) :=
  if count < 1 then Except.error "exponential_buckets needs a positive count"
  else if start ≤ 0 then
    Except.error "exponential_buckets needs a positive start value"
  else if factor ≤ 1 then
    Except.error "exponential_buckets needs a factor greater than 1"
  else Except.ok (expBucketsFrom start factor count)

/-- prometheus build_fq_name: namespace, subsystem and name joined by
underscores, skipping empty parts. -/
def build_fq_name (namespace_ subsystem name : String) : String :=
  if name = "" then ""
  else if namespace_ ≠ "" ∧ subsystem ≠ "" then
    namespace_ ++ "_" ++ subsystem ++ "_" ++ name
  else if namespace_ ≠ "" then namespace_ ++ "_" ++ name
  else if subsystem ≠ "" then subsystem ++ "_" ++ name
  else name

/-- The descriptor data the reconcile_metric macro in metrics.rs gives every
metric: short name, namespace gotk, subsystem reconcile, variable labels. -/
structure MetricOpts where
  name : String
  namespace_ : String
  subsystem : String
  labels : List String
  deriving DecidableEq

/-- The fully qualified metric name of a descriptor. -/
def MetricOpts.fqName (o : MetricOpts) : String :=
  build_fq_name o.namespace_ o.subsystem o.name

/-- Descriptor of the condition gauge in Recorder.new. -/
def conditionOpts : MetricOpts :=
  { name := "condition", namespace_ := "gotk", subsystem := "reconcile",
    labels := ["kind", "name", "namespace", "type", "status"] }

/-- Descriptor of the suspend gauge in Recorder.new. -/
def suspendOpts : MetricOpts :=
  { name := "status", namespace_ := "gotk", subsystem := "reconcile",
    labels := ["kind", "name", "namespace"] }

/-- Descriptor of the duration histogram in Recorder.new. -/
def durationOpts : MetricOpts :=
  { name := "duration_seconds", namespace_ := "gotk", subsystem := "reconcile",
    labels := ["kind", "name", "namespace"] }

/-- The buckets Recorder.new gives the duration histogram:
exponential_buckets(10e-9, 10, 10). -/
def durationBuckets : Except String (List ℚ) :=
  exponential_buckets (10 / 1000000000) 10 10

/-- True when the list sub occurs as a contiguous run inside hay. -/
def containsRun (hay sub : List Char) : Bool :=
  hay.tails.any fun t => sub.isPrefixOf t

/-- The bucket loop produces start * factor ^ i for i below count. -/
theorem expBucketsFrom_eq_map (a f : ℚ) (n : ℕ) :
    expBucketsFrom a f n = (List.range n).map (fun i => a * f ^ i) := by
  induction n generalizing a with
  | zero => rfl
  | succ n ih =>
      rw [expBucketsFrom, List.range_succ_eq_map, List.map_cons, ih,
        List.map_map]
      have hc : ((fun i => a * f ^ i) ∘ Nat.succ) = fun i => a * f * f ^ i := by
        funext i
        simp only [Function.comp_apply, pow_succ]
        ring
      rw [hc]
      simp

/-- C8: the duration histogram has exactly 10 buckets, the smallest boundary
is 10 nanoseconds (1e-8 seconds), and each next boundary is 10 times the
previous one. -/
theorem duration_buckets_exponential :
    ∃ l, durationBuckets = Except.ok l ∧ l.length = 10 ∧
      l.head? = some ((1 : ℚ) / 100000000) ∧
      (∀ q ∈ l, (1 : ℚ) / 100000000 ≤ q) ∧
      l = [1 / 100000000, 1 / 10000000, 1 / 1000000, 1 / 100000, 1 / 10000,
        1 / 1000, 1 / 100, 1 / 10, 1, 10] ∧
      (∀ i, i + 1 < l.length → l.getD (i + 1) 0 = 10 * l.getD i 0) := by
  have hl : expBucketsFrom (10 / 1000000000) 10 10 =
      [1 / 100000000, 1 / 10000000, 1 / 1000000, 1 / 100000, 1 / 10000,
        1 / 1000, 1 / 100, 1 / 10, 1, 10] := by
    rw [expBucketsFrom_eq_map]
    norm_num [List.range_succ]
  have hb : durationBuckets =
      Except.ok [1 / 100000000, 1 / 10000000, 1 / 1000000, 1 / 100000,
        1 / 10000, 1 / 1000, 1 / 100, 1 / 10, 1, 10] := by
    rw [durationBuckets, exponential_buckets, if_neg (by norm_num),
      if_neg (by norm_num), if_neg (by norm_num), hl]
  refine ⟨_, hb, rfl, rfl, ?_, rfl, ?_⟩
  · intro q hq
    simp only [List.mem_cons, List.not_mem_nil, or_false] at hq
    rcases hq with h | h | h | h | h | h | h | h | h | h <;> rw [h] <;> norm_num
  · intro i hi
    have h9 : i < 9 := by
      simp only [List.length_cons, List.length_nil] at hi
      omega
    interval_cases i <;> norm_num [List.getD]

/-- C10: Recorder.new registers the suspend gauge under the short name
status with fully qualified name gotk_reconcile_status, which does not
contain the word suspend, while the condition gauge is named condition and
the histogram duration_seconds. -/
theorem metric_names_as_registered :
    suspendOpts.name = "status" ∧
    suspendOpts.fqName = "gotk_reconcile_status" ∧
    containsRun suspendOpts.fqName.toList "suspend".toList = false ∧
    conditionOpts.name = "condition" ∧
    conditionOpts.fqName = "gotk_reconcile_condition" ∧
    durationOpts.name = "duration_seconds" ∧
    durationOpts.fqName = "gotk_reconcile_duration_seconds" := by
  refine ⟨rfl, by decide, by decide, rfl, by decide, rfl, by decide⟩

/-! ## Command surface (libs/utils/cap/src/cli.rs) -/

/-- The identity a DynController carries: group and kind captured at
registration from the static type metadata. -/
structure ControllerResourceInfo where
  group : String
  kind : String
  deriving DecidableEq

/-- The crd-name branch of Command.run: find the first registered controller
whose kind equals the argument, or whose group/kind equals it. -/
def resolveCrd (controllers : List ControllerResourceInfo) (crd : String) :
    Option ControllerResourceInfo :=
  controllers.find? fun c =>
    (c.kind == crd) || ((c.group ++ "/" ++ c.kind) == crd)

/-- Observable outcome of running the crd-name command. -/
inductive CmdOutcome
  | printedCrd (info : ControllerResourceInfo)
  | panicked (msg : String)
  deriving DecidableEq

/-- Command.run on Crd with a name argument: when a controller is found its
schema manifest is printed; when none is found the code reaches a todo
macro, which panics the process with this message. -/
def runCrdName (controllers : List ControllerResourceInfo) (crd : String) :
    CmdOutcome :=
  match resolveCrd controllers crd with
  | none => CmdOutcome.panicked "not found error message"
  | some c => CmdOutcome.printedCrd c

/-- C1: running the crd command with a name matching no registered adapter
does not surface a command error: the code panics through an unimplemented
todo branch. Resolution itself is by exact kind or exact group/kind on the
first match, as the same evaluation shows on matching names. -/
theorem crd_no_match_panics :
    runCrdName [⟨"source.toolkit.fluxcd.io", "GitHubKeys"⟩] "Missing" =
      CmdOutcome.panicked "not found error message" ∧
    runCrdName [⟨"source.toolkit.fluxcd.io", "GitHubKeys"⟩] "GitHubKeys" =
      CmdOutcome.printedCrd ⟨"source.toolkit.fluxcd.io", "GitHubKeys"⟩ ∧
    runCrdName [⟨"source.toolkit.fluxcd.io", "GitHubKeys"⟩]
        "source.toolkit.fluxcd.io/GitHubKeys" =
      CmdOutcome.printedCrd ⟨"source.toolkit.fluxcd.io", "GitHubKeys"⟩ := by
  refine ⟨by decide, by decide, by decide⟩

/-! ## Host entry point (ControllerApp.main in libs/utils/cap/src/lib.rs) -/

/-- The calls ControllerApp.main makes that matter to its lifecycle. -/
inductive MainEvent
  | telemetrySetup
  | appRun
  | telemetryTeardown
  deriving DecidableEq, BEq

/-- Success or failure of each fallible step of ControllerApp.main: the user
setup closure, tokio Runtime.new, telemetry setup, and app.run. -/
structure MainEnv where
  setupAppOk : Bool
  runtimeOk : Bool
  telemetrySetupOk : Bool
  runOk : Bool
  deriving DecidableEq

/-- The sequence of lifecycle calls ControllerApp.main performs, read off
its body: setup(app)? and Runtime.new()? return before any telemetry call;
inside block_on, telemetry setup is called, and on its failure the question
mark operator returns before run and teardown; otherwise run executes, then
teardown, then the run result is propagated. -/
def mainTrace (env : MainEnv) : List MainEvent :=
  if !env.setupAppOk then []
  else if !env.runtimeOk then []
  else if !env.telemetrySetupOk then [MainEvent.telemetrySetup]
  else [MainEvent.telemetrySetup, MainEvent.appRun,
    MainEvent.telemetryTeardown]

/-- Whether ControllerApp.main returns Ok. -/
def mainOk (env : MainEnv) : Bool :=
  env.setupAppOk && env.runtimeOk && env.telemetrySetupOk && env.runOk

/-- C2 counterexample: when telemetry setup itself fails, main returns the
error without ever calling teardown, although setup was called once. -/
theorem main_teardown_skipped_on_setup_failure :
    (mainTrace ⟨true, true, false, true⟩).count MainEvent.telemetryTeardown
      = 0 ∧
    (mainTrace ⟨true, true, false, true⟩).count MainEvent.telemetrySetup = 1 ∧
    mainOk ⟨true, true, false, true⟩ = false := by
  refine ⟨by decide, by decide, by decide⟩

/-- C2 (amended): telemetry teardown runs whenever telemetry setup succeeds
— in particular even when the subsequent run returns an error — and then
setup and teardown are each called exactly once, bracketing the run; when
app setup, runtime creation or telemetry setup itself fails, teardown is not
called. -/
theorem main_setup_teardown_bracket (env : MainEnv)
    (h1 : env.setupAppOk = true) (h2 : env.runtimeOk = true)
    (h3 : env.telemetrySetupOk = true) :
    mainTrace env = [MainEvent.telemetrySetup, MainEvent.appRun,
      MainEvent.telemetryTeardown] ∧
    (mainTrace env).count MainEvent.telemetrySetup = 1 ∧
    (mainTrace env).count MainEvent.telemetryTeardown = 1 := by
  have ht : mainTrace env = [MainEvent.telemetrySetup, MainEvent.appRun,
      MainEvent.telemetryTeardown] := by
    rw [mainTrace, h1, h2, h3]
    rfl
  rw [ht]
  exact ⟨rfl, by decide, by decide⟩

/-- C2 witness, at an environment whose run step fails: teardown still runs
once. -/
theorem main_setup_teardown_bracket_witness :
    mainTrace ⟨true, true, true, false⟩ = [MainEvent.telemetrySetup,
      MainEvent.appRun, MainEvent.telemetryTeardown] ∧
    (mainTrace ⟨true, true, true, false⟩).count MainEvent.telemetrySetup
      = 1 ∧
    (mainTrace ⟨true, true, true, false⟩).count MainEvent.telemetryTeardown
      = 1 :=
  main_setup_teardown_bracket ⟨true, true, true, false⟩ rfl rfl rfl

/-! ## Termination signals (libs/utils/cap/src/signals.rs)

The define_signals macro instantiates the Signal enum with SIGTERM, SIGINT
and SIGQUIT and a TryFrom over raw signal numbers; watch() filter_maps the
raw OS signal stream through that conversion. The shared() future awaits
the first item of watch() and is wrapped in futures Shared, which memoizes
the first completion; we embed that as a step machine over an event trace of
raw signal deliveries and polls by clones. -/

/-- The raw numbers of the three recognized signals on Linux. -/
def SIGINT : Int := 2

def SIGQUIT : Int := 3

def SIGTERM : Int := 15

/-- The Signal enum of signals.rs. -/
inductive Signal
  | sigTerm
  | sigInt
  | sigQuit
  deriving DecidableEq

/-- TryFrom i32 for Signal: the three recognized numbers convert, all others
are rejected. -/
def Signal.tryFrom (value : Int) : Option Signal :=
  if value = SIGTERM then some Signal.sigTerm
  else if value = SIGINT then some Signal.sigInt
  else if value = SIGQUIT then some Signal.sigQuit
  else none

/-- Signal.watch applied to the raw signals delivered so far: the stream of
recognized termination signal kinds, unrecognized numbers dropped. -/
def watchItems (delivered : List Int) : List Signal :=
  delivered.filterMap Signal.tryFrom

/-- C6: a raw signal number other than SIGTERM, SIGINT and SIGQUIT does not
convert and contributes no item to the watch stream: the stream over a
delivery list containing it is the stream over the list without it. -/
theorem watch_filters_unrecognized (n : Int) (h1 : n ≠ SIGTERM)
    (h2 : n ≠ SIGINT) (h3 : n ≠ SIGQUIT) (xs ys : List Int) :
    Signal.tryFrom n = none ∧
    watchItems (xs ++ n :: ys) = watchItems xs ++ watchItems ys := by
  have hn : Signal.tryFrom n = none := by
    rw [Signal.tryFrom, if_neg h1, if_neg h2, if_neg h3]
  refine ⟨hn, ?_⟩
  simp [watchItems, List.filterMap_append, List.filterMap_cons, hn]

/-- C6 witness: SIGKILL (9) is filtered between a SIGINT and a SIGTERM. -/
theorem watch_filters_unrecognized_witness :
    Signal.tryFrom 9 = none ∧
    watchItems ([2] ++ 9 :: [15]) = watchItems [2] ++ watchItems [15] :=
  watch_filters_unrecognized 9 (by decide) (by decide) (by decide) [2] [15]

/-- An event of the shared shutdown machine: the OS delivers a raw signal,
or a clone of the shared future is polled. -/
inductive SharedEvent
  | deliver (sig : Int)
  | poll (clone : ℕ)

/-- State of the shared shutdown future: raw signals delivered so far, the
memoized resolution flag of the Shared wrapper, and the log of poll results,
newest first, each tagged with the polling clone. -/
structure SharedState where
  delivered : List Int
  resolved : Bool
  observations : List (ℕ × Bool)

/-- Initial state: nothing delivered, unresolved, nothing observed. -/
def initSharedState : SharedState :=
  { delivered := [], resolved := false, observations := [] }

/-- One step: a delivery appends the raw signal; a poll of any clone is
ready when the resolution is already memoized, or when the inner future can
complete because watch has produced an item, and the result is memoized. -/
def sharedStep (st : SharedState) : SharedEvent → SharedState
  | SharedEvent.deliver s => { st with delivered := st.delivered ++ [s] }
  | SharedEvent.poll c =>
      let ready := st.resolved || !(watchItems st.delivered).isEmpty
      { st with resolved := ready, observations := (c, ready) :: st.observations }

/-- Run of the machine over an event trace. -/
def sharedRun (events : List SharedEvent) : SharedState :=
  events.foldl sharedStep initSharedState

theorem sharedStep_resolved_mono (st : SharedState) (e : SharedEvent)
    (h : st.resolved = true) : (sharedStep st e).resolved = true := by
  cases e with
  | deliver s => exact h
  | poll c => simp [sharedStep, h]

theorem sharedFoldl_resolved_mono (evs : List SharedEvent) (st : SharedState)
    (h : st.resolved = true) :
    (List.foldl sharedStep st evs).resolved = true := by
  induction evs generalizing st with
  | nil => exact h
  | cons e evs ih => exact ih _ (sharedStep_resolved_mono st e h)

theorem sharedStep_delivered_mono (st : SharedState) (e : SharedEvent)
    (s : Int) (h : s ∈ st.delivered) : s ∈ (sharedStep st e).delivered := by
  cases e with
  | deliver s2 => exact List.mem_append_left _ h
  | poll c => exact h

theorem sharedFoldl_delivered_mono (evs : List SharedEvent)
    (st : SharedState) (s : Int) (h : s ∈ st.delivered) :
    s ∈ (List.foldl sharedStep st evs).delivered := by
  induction evs generalizing st with
  | nil => exact h
  | cons e evs ih => exact ih _ (sharedStep_delivered_mono st e s h)

theorem watchItems_isEmpty_false (s : Int) (l : List Int) (hs : s ∈ l)
    (h : Signal.tryFrom s ≠ none) : (watchItems l).isEmpty = false := by
  rcases Option.ne_none_iff_exists.mp h with ⟨k, hk⟩
  have hk2 : k ∈ watchItems l := List.mem_filterMap.mpr ⟨s, hs, hk.symm⟩
  have hne : watchItems l ≠ [] := List.ne_nil_of_mem hk2
  cases he : (watchItems l).isEmpty with
  | false => rfl
  | true => exact absurd (List.isEmpty_iff.mp he) hne

/-- C5: with a termination signal delivered anywhere before it, a poll of
the shared shutdown future observes it resolved, whatever clone polls and
whatever events sit in between (so clones taken before or after resolution
all report the same resolved state); the resolution is memoized, so once a
state is resolved every continuation of the trace keeps it resolved — it
resolves at most once, irreversibly, one broadcast resolution for all
clones. -/
theorem shared_signal_broadcast (xs ys : List SharedEvent) (s : Int)
    (c : ℕ) (h : Signal.tryFrom s ≠ none) :
    (sharedRun (xs ++ SharedEvent.deliver s ::
        (ys ++ [SharedEvent.poll c]))).observations.head? = some (c, true) ∧
    (sharedRun (xs ++ SharedEvent.deliver s ::
        (ys ++ [SharedEvent.poll c]))).resolved = true ∧
    (∀ es ws, (sharedRun es).resolved = true →
      (sharedRun (es ++ ws)).resolved = true) := by
  have hA : xs ++ SharedEvent.deliver s :: (ys ++ [SharedEvent.poll c]) =
      ((xs ++ [SharedEvent.deliver s]) ++ ys) ++ [SharedEvent.poll c] := by
    simp
  have hrun : sharedRun (xs ++ SharedEvent.deliver s ::
      (ys ++ [SharedEvent.poll c])) =
      sharedStep (List.foldl sharedStep
        (sharedStep (sharedRun xs) (SharedEvent.deliver s)) ys)
        (SharedEvent.poll c) := by
    rw [hA, sharedRun, List.foldl_append, List.foldl_append,
      List.foldl_append]
    rfl
  set st2 := List.foldl sharedStep
    (sharedStep (sharedRun xs) (SharedEvent.deliver s)) ys with hst2
  have hs1 : s ∈ (sharedStep (sharedRun xs)
      (SharedEvent.deliver s)).delivered := by
    simp [sharedStep]
  have hs2 : s ∈ st2.delivered := sharedFoldl_delivered_mono ys _ s hs1
  have hready : (st2.resolved || !(watchItems st2.delivered).isEmpty)
      = true := by
    rw [watchItems_isEmpty_false s _ hs2 h]
    simp
  refine ⟨?_, ?_, ?_⟩
  · rw [hrun]
    simp only [sharedStep, List.head?]
    rw [hready]
  · rw [hrun]
    simp only [sharedStep]
    exact hready
  · intro es ws hres
    show (List.foldl sharedStep initSharedState (es ++ ws)).resolved = true
    rw [List.foldl_append]
    exact sharedFoldl_resolved_mono ws _ hres

/-- C5 witness: one clone polls before any signal and sees pending, SIGTERM
arrives, then that clone and a clone created after the signal both observe
resolved. -/
theorem shared_signal_broadcast_witness :
    (sharedRun ([SharedEvent.poll 0] ++ SharedEvent.deliver 15 ::
        ([SharedEvent.poll 0] ++ [SharedEvent.poll 1]))).observations.head?
      = some (1, true) ∧
    (sharedRun ([SharedEvent.poll 0] ++ SharedEvent.deliver 15 ::
        ([SharedEvent.poll 0] ++ [SharedEvent.poll 1]))).resolved = true ∧
    (∀ es ws, (sharedRun es).resolved = true →
      (sharedRun (es ++ ws)).resolved = true) :=
  shared_signal_broadcast [SharedEvent.poll 0] [SharedEvent.poll 0] 15 1
    (by decide)

/-! ## Reconciler trace span (DynController.new in libs/utils/cap/src/lib.rs) -/

/-- The metadata fields the reconciler closure reads. -/
structure ObjectMeta where
  name : Option String
  namespace_ : Option String
  deriving DecidableEq

/-- The resource.name span field of the per-event reconcile trace: the
metadata name, or the literal NULL marker when absent. -/
def reconcileSpanName (meta : ObjectMeta) : String :=
  meta.name.getD "<NULL>"

/-- The resource.namespace span field of the per-event reconcile trace. -/
def reconcileSpanNamespace (meta : ObjectMeta) : String :=
  meta.namespace_.getD "<NULL>"

/-- C9: a resource whose metadata lacks the name, or lacks the namespace,
has that field traced as the literal NULL marker — not as the empty string —
with the other field arbitrary, present or absent; in contrast, the metrics
recorder renders the same absent field as the empty-string label. -/
theorem reconcile_span_null_markers (kind2 name2 namespace2 : Option String)
    (r : Recorder) :
    reconcileSpanName ⟨none, namespace2⟩ = "<NULL>" ∧
    reconcileSpanNamespace ⟨name2, none⟩ = "<NULL>" ∧
    reconcileSpanName ⟨none, namespace2⟩ ≠ "" ∧
    reconcileSpanNamespace ⟨name2, none⟩ ≠ "" ∧
    (r.record_duration ⟨kind2, name2, none⟩).duration =
      [kind2.getD "", name2.getD "", ""] :: r.duration ∧
    (r.record_duration ⟨kind2, none, namespace2⟩).duration =
      [kind2.getD "", "", namespace2.getD ""] :: r.duration := by
  have hne : ("<NULL>" : String) ≠ "" := by decide
  refine ⟨rfl, rfl, hne, hne, rfl, rfl⟩

